import Mathlib

/-!
Verification of the autopilot orchestration core of the `wp-seo` repository.

This file gives a shallow embedding, in Lean 4, of the parts of the
repository that the specification's claims are about:

* `modules/content_profile.py` — profile resolution with seed-stable
  pseudo-random axis picks (backed by a full executable SHA-256,
  mirroring Python's `hashlib.sha256(...).hexdigest()`);
* `utils/database.py` — the deduplication ledger (`processed_links`
  table) with its upsert and daily-count queries, modelled as a list of
  records with the SQL `ON CONFLICT` update semantics;
* `modules/rss_parser.py` — `fetch_latest_rss_items`, including its
  per-feed silent exception swallowing;
* `modules/ai_engine.py` — the pure helpers `inject_ad_block` (with its
  reachable IndexError path) and `build_article_system_prompt`;
* `modules/autopilot.py` — `run_autopilot_once`, the orchestrator.

External collaborators that perform I/O (feed download+parse, YouTube
discovery, Telegram fetch, LLM article generation, WordPress publishing,
the file lock, and wall-clock time) are modelled by an `Env` record of
oracle functions; a Python call that can raise is an oracle returning
`Except String α`, where the `String` is the exception's message.
Timestamps are modelled as naturals with the same ordering as the ISO
strings the code compares; `env.today` is the start-of-day threshold
used by `count_processed_today` and `env.now` is the timestamp written
by `mark_url_processed`.

Python dictionary lookups `settings.get(key, default)` are modelled by
`Option`-typed fields of a `Settings` structure, `none` standing for an
absent key; `_get_int`'s "malformed integer falls back to the default"
behaviour is likewise folded into `none`.
-/

/-! ## SHA-256 (executable model of `hashlib.sha256(...).hexdigest()`) -/

/-- One 32-bit modular sum of a list of words. -/
def add32 (xs : List Nat) : Nat := xs.foldl (· + ·) 0 % 4294967296

/-- 32-bit right rotation. -/
def rotr32 (x n : Nat) : Nat := ((x >>> n) ||| (x <<< (32 - n))) % 4294967296

/-- SHA-256 big sigma 0. -/
def bsig0 (x : Nat) : Nat := rotr32 x 2 ^^^ rotr32 x 13 ^^^ rotr32 x 22

/-- SHA-256 big sigma 1. -/
def bsig1 (x : Nat) : Nat := rotr32 x 6 ^^^ rotr32 x 11 ^^^ rotr32 x 25

/-- SHA-256 small sigma 0. -/
def ssig0 (x : Nat) : Nat := rotr32 x 7 ^^^ rotr32 x 18 ^^^ (x >>> 3)

/-- SHA-256 small sigma 1. -/
def ssig1 (x : Nat) : Nat := rotr32 x 17 ^^^ rotr32 x 19 ^^^ (x >>> 10)

/-- SHA-256 choose function (32-bit complement written as xor with all-ones). -/
def chf (x y z : Nat) : Nat := (x &&& y) ^^^ ((x ^^^ 4294967295) &&& z)

/-- SHA-256 majority function. -/
def majf (x y z : Nat) : Nat := (x &&& y) ^^^ (x &&& z) ^^^ (y &&& z)

/-- The 64 SHA-256 round constants. -/
def sha256K : List Nat :=
  [1116352408, 1899447441, 3049323471, 3921009573, 961987163, 1508970993,
   2453635748, 2870763221, 3624381080, 310598401, 607225278, 1426881987,
   1925078388, 2162078206, 2614888103, 3248222580, 3835390401, 4022224774,
   264347078, 604807628, 770255983, 1249150122, 1555081692, 1996064986,
   2554220882, 2821834349, 2952996808, 3210313671, 3336571891, 3584528711,
   113926993, 338241895, 666307205, 773529912, 1294757372, 1396182291,
   1695183700, 1986661051, 2177026350, 2456956037, 2730485921, 2820302411,
   3259730800, 3345764771, 3516065817, 3600352804, 4094571909, 275423344,
   430227734, 506948616, 659060556, 883997877, 958139571, 1322822218,
   1537002063, 1747873779, 1955562222, 2024104815, 2227730452, 2361852424,
   2428436474, 2756734187, 3204031479, 3329325298]

/-- The initial SHA-256 hash state. -/
def sha256H0 : List Nat :=
  [1779033703, 3144134277, 1013904242, 2773480762,
   1359893119, 2600822924, 528734635, 1541459225]

/-- SHA-256 padding: append `0x80`, zeros, and the 64-bit big-endian bit length. -/
def sha256pad (msg : List Nat) : List Nat :=
  let len := msg.length
  let r := (len + 1) % 64
  let k := (64 + 56 - r) % 64
  let bits := len * 8
  msg ++ [0x80] ++ List.replicate k 0 ++
    [(bits >>> 56) % 256, (bits >>> 48) % 256, (bits >>> 40) % 256, (bits >>> 32) % 256,
     (bits >>> 24) % 256, (bits >>> 16) % 256, (bits >>> 8) % 256, bits % 256]

/-- Group bytes into big-endian 32-bit words. -/
def bytesToWords : List Nat → List Nat
  | a :: b :: c :: d :: rest => (((a * 256 + b) * 256 + c) * 256 + d) :: bytesToWords rest
  | _ => []

/-- Extend the sixteen block words into the 64-entry message schedule. -/
def sha256Schedule (block : List Nat) : List Nat :=
  (List.range 48).foldl
    (fun w i =>
      let t := i + 16
      w ++ [add32 [ssig1 (w.getD (t - 2) 0), w.getD (t - 7) 0, ssig0 (w.getD (t - 15) 0),
                   w.getD (t - 16) 0]])
    (bytesToWords block)

/-- One SHA-256 compression round on the eight-word working state. -/
def sha256Round (k w : Nat) : List Nat → List Nat
  | [a, b, c, d, e, f, g, h] =>
    let t1 := add32 [h, bsig1 e, chf e f g, k, w]
    let t2 := add32 [bsig0 a, majf a b c]
    [add32 [t1, t2], a, b, c, add32 [d, t1], e, f, g]
  | s => s

/-- Compress one 64-byte block into the hash state. -/
def sha256Block (h : List Nat) (block : List Nat) : List Nat :=
  let w := sha256Schedule block
  let s := (List.range 64).foldl (fun s t => sha256Round (sha256K.getD t 0) (w.getD t 0) s) h
  List.zipWith (fun x y => add32 [x, y]) h s

/-- Fold the given number of 64-byte blocks into the hash state. -/
def sha256Iter : Nat → List Nat → List Nat → List Nat
  | 0, _, h => h
  | n + 1, bytes, h => sha256Iter n (bytes.drop 64) (sha256Block h (bytes.take 64))

/-- SHA-256 of a byte list, as the 32 digest bytes. -/
def sha256 (msg : List Nat) : List Nat :=
  let padded := sha256pad msg
  let hh := sha256Iter (padded.length / 64) padded sha256H0
  hh.flatMap (fun w => [(w >>> 24) % 256, (w >>> 16) % 256, (w >>> 8) % 256, w % 256])

/-- One lowercase hexadecimal digit. -/
def hexChar (n : Nat) : Char := if n < 10 then Char.ofNat (48 + n) else Char.ofNat (87 + n)

/-- Lowercase hex rendering of a byte list (Python's `hexdigest()`). -/
def bytesToHex (bs : List Nat) : String :=
  (bs.flatMap (fun b => [hexChar (b / 16), hexChar (b % 16)])).asString

/-- Value of one lowercase hex digit. -/
def hexVal (c : Char) : Nat := if 97 ≤ c.toNat then c.toNat - 87 else c.toNat - 48

/-- `int(s, 16)` on a lowercase hex string. -/
def parseHex (cs : List Char) : Nat := cs.foldl (fun acc c => acc * 16 + hexVal c) 0

/-- UTF-8 encoding of one character (Python's `str.encode("utf-8")`, per char). -/
def utf8EncodeCh (c : Char) : List Nat :=
  let n := c.toNat
  if n < 128 then [n]
  else if n < 2048 then [192 ||| (n >>> 6), 128 ||| (n &&& 63)]
  else if n < 65536 then
    [224 ||| (n >>> 12), 128 ||| ((n >>> 6) &&& 63), 128 ||| (n &&& 63)]
  else
    [240 ||| (n >>> 18), 128 ||| ((n >>> 12) &&& 63), 128 ||| ((n >>> 6) &&& 63), 128 ||| (n &&& 63)]

/-- UTF-8 bytes of a string. -/
def strBytes (s : String) : List Nat := (s.toList.map utf8EncodeCh).flatten

/-- Python's `str.strip()` (whitespace from both ends), defined by structural
recursion so that it evaluates inside the kernel. -/
def pyStrip (s : String) : String :=
  (((s.toList.dropWhile Char.isWhitespace).reverse.dropWhile Char.isWhitespace).reverse).asString

/-- Python's `str.lower()` (ASCII case folding, which is all the call sites use). -/
def pyLower (s : String) : String := (s.toList.map Char.toLower).asString

/-! ## Settings (`settings: Dict[str, Any]`, the keys the embedded code reads) -/

/-- The configuration dictionary. `none` models an absent key (and, for the
integer-valued keys read through `_get_int` and `_to_opt_int`, also a
malformed value, since both fall back to the same default). -/
structure Settings where
  autopilot_enabled : Option Bool := none
  autopilot_rss_enabled : Option Bool := none
  autopilot_youtube_enabled : Option Bool := none
  autopilot_telegram_enabled : Option Bool := none
  autopilot_rss_mode : Option String := none
  autopilot_youtube_mode : Option String := none
  autopilot_telegram_mode : Option String := none
  autopilot_max_per_run : Option Int := none
  autopilot_daily_limit_total : Option Int := none
  autopilot_rss_limit_per_feed : Option Int := none
  autopilot_youtube_limit_per_channel : Option Int := none
  autopilot_telegram_limit_per_channel : Option Int := none
  rss_sources : List String := []
  youtube_api_key : Option String := none
  youtube_channels : List String := []
  telegram_channels : List String := []
  openai_api_key : String := ""
  base_url : Option String := none
  model_name : String := "gpt-4o"
  ad_code : String := ""
  ad_paragraph : Option Int := none
  article_system_prompt : Option String := none
  site_language : Option String := none
  content_style : Option String := none
  content_format : Option String := none
  author_mood : Option String := none
  target_length_chars : Option Int := none
  headings_h2_count : Option Int := none
  headings_h3_count : Option Int := none
deriving Repr, DecidableEq

/-- `_get_int(settings, key, default)` followed by `max(0, ...)`, as every
integer setting consumed by `run_autopilot_once` is read. -/
def natSetting (v : Option Int) (default : Int) : Nat := (max 0 (v.getD default)).toNat

/-! ## `modules/content_profile.py` -/

/-- `LANGUAGES` (insertion order preserved, as Python dicts do). -/
def LANGUAGES : List (String × String) :=
  [("ru", "русский"), ("en", "английский")]

/-- `STYLE_PRESETS`. -/
def STYLE_PRESETS : List (String × String) :=
  [("entertainment", "развлекательный, лёгкий, вовлекающий"),
   ("author", "авторский, с личными наблюдениями (без выдуманных фактов)"),
   ("professional", "профессиональный, экспертный, чёткий и практичный"),
   ("thematic", "тематический, сфокусированный на узкой нише"),
   ("random", "случайный стиль (выбери сам уместный под тему)")]

/-- `FORMAT_PRESETS`. -/
def FORMAT_PRESETS : List (String × String) :=
  [("article", "полноценная статья (структурно, с выводами)"),
   ("post", "пост (короче, динамичнее, меньше воды)"),
   ("pr", "PR-материал (презентация ценности, без агрессивных обещаний)"),
   ("press_release", "пресс-релиз (нейтрально, факты, анонсы, цитаты по желанию)"),
   ("release_notes", "релиз/обновление (что нового, кому полезно, как использовать)"),
   ("random", "случайный формат (выбери сам уместный под тему)")]

/-- `MOOD_PRESETS`. -/
def MOOD_PRESETS : List (String × String) :=
  [("neutral", "нейтральное, спокойное"),
   ("serious", "серьёзное, без шуток и сленга"),
   ("humor", "с лёгким уместным юмором (без кринжа и токсичности)"),
   ("playful", "игровое, дружелюбное, но без панибратства"),
   ("random", "случайное настроение (выбери сам уместное под тему)")]

/-- `_stable_pick(options, seed=...)`: first 8 hex digits of
`sha256(seed)` as an integer, reduced modulo the number of options
(`options` is never empty at the call sites; the out-of-range default of
`getD` is unreachable there). -/
def stable_pick (options : List String) (seed : String) : String :=
  let digest := bytesToHex (sha256 (strBytes seed))
  let idx := parseHex (digest.toList.take 8) % options.length
  options.getD idx ""

/-- `_normalize_choice(value, allowed=..., default=...)`. -/
def normalize_choice (value : String) (allowed : List String) (default : String) : String :=
  let v := pyStrip value
  if v = "" then default
  else if allowed.contains v then v else default

/-- `ContentProfile`. -/
structure ContentProfile where
  language : String
  style : String
  content_format : String
  mood : String
  target_length_chars : Option Int
  headings_h2_count : Option Int
  headings_h3_count : Option Int
deriving Repr, DecidableEq

/-- `ContentProfile.prompt_block()`. -/
def ContentProfile.prompt_block (p : ContentProfile) : String :=
  let language_name := (LANGUAGES.lookup p.language).getD p.language
  let style_desc := (STYLE_PRESETS.lookup p.style).getD p.style
  let format_desc := (FORMAT_PRESETS.lookup p.content_format).getD p.content_format
  let mood_desc := (MOOD_PRESETS.lookup p.mood).getD p.mood
  let lines : List String :=
    ["### НАСТРОЙКИ СТИЛЯ И ФОРМАТА:",
     "- Язык: " ++ language_name,
     "- Стиль: " ++ style_desc,
     "- Формат: " ++ format_desc,
     "- Настроение автора: " ++ mood_desc]
  let lines := lines ++
    (match p.target_length_chars with
     | some v => if 0 < v then
         ["- Примерная длина: ~" ++ toString v ++ " знаков (с пробелами), допускается ±20%"]
       else []
     | none => [])
  let h2pos : Bool := match p.headings_h2_count with | some v => decide (0 < v) | none => false
  let h3pos : Bool := match p.headings_h3_count with | some v => decide (0 < v) | none => false
  let lines := lines ++
    (if h2pos ∨ h3pos then
       ["- Заголовки: примерно <h2> × " ++ toString (p.headings_h2_count.getD 0) ++
        " и <h3> × " ++ toString (p.headings_h3_count.getD 0) ++ " (допускается ±1)"]
     else [])
  let lines := lines ++ ["Соблюдай эти настройки, но не в ущерб фактической точности и читабельности."]
  pyStrip (String.intercalate "\n" lines)

/-- `_to_opt_int` inside `resolve_profile` (missing/malformed → `None`,
non-positive → `None`). -/
def toOptInt (raw : Option Int) : Option Int :=
  match raw with
  | none => none
  | some v => if 0 < v then some v else none

/-- `resolve_profile(settings, seed=...)`. Note that the `"random"`
branch exists only for the style, format and mood axes; `"random"` is
not a key of `LANGUAGES`, so a `site_language` of `"random"` is
normalised to the default `"ru"` instead. -/
def resolve_profile (settings : Settings) (seed : String) : ContentProfile :=
  let language := normalize_choice (settings.site_language.getD "ru")
    (LANGUAGES.map Prod.fst) "ru"
  let style := normalize_choice (settings.content_style.getD "professional")
    (STYLE_PRESETS.map Prod.fst) "professional"
  let content_format := normalize_choice (settings.content_format.getD "article")
    (FORMAT_PRESETS.map Prod.fst) "article"
  let mood := normalize_choice (settings.author_mood.getD "neutral")
    (MOOD_PRESETS.map Prod.fst) "neutral"
  let style_choices := (STYLE_PRESETS.map Prod.fst).filter (· ≠ "random")
  let format_choices := (FORMAT_PRESETS.map Prod.fst).filter (· ≠ "random")
  let mood_choices := (MOOD_PRESETS.map Prod.fst).filter (· ≠ "random")
  let style := if style = "random" then stable_pick style_choices (seed ++ "|style") else style
  let content_format :=
    if content_format = "random" then stable_pick format_choices (seed ++ "|format")
    else content_format
  let mood := if mood = "random" then stable_pick mood_choices (seed ++ "|mood") else mood
  { language := language, style := style, content_format := content_format, mood := mood,
    target_length_chars := toOptInt settings.target_length_chars,
    headings_h2_count := toOptInt settings.headings_h2_count,
    headings_h3_count := toOptInt settings.headings_h3_count }

/-! ## `utils/database.py` — the deduplication ledger -/

/-- One row of the `processed_links` table (`url` is the primary key;
`created_at` is the insertion timestamp, modelled as a `Nat` ordered the
same way as the ISO-8601 strings the queries compare). -/
structure LedgerRecord where
  url : String
  source : String
  title : Option String
  status : String
  created_at : Nat
deriving Repr, DecidableEq

/-- The `processed_links` table. The primary-key constraint means a URL
occurs at most once; the operations below preserve that. -/
abbrev Ledger := List LedgerRecord

/-- `is_url_processed(url)`. -/
def is_url_processed (ledger : Ledger) (url : String) : Bool :=
  ledger.any (fun r => r.url = url)

/-- `mark_url_processed(url, source=..., title=..., status=...)` at time `now`:
the `INSERT ... ON CONFLICT(url) DO UPDATE` upsert. On conflict it updates
`source` and `status`, keeps the old `title` unless a new non-null one is
given (`COALESCE(excluded.title, processed_links.title)`), and — the update
list having no `created_at` clause — leaves `created_at` untouched. -/
def mark_url_processed (ledger : Ledger) (url source : String) (title : Option String)
    (status : String) (now : Nat) : Ledger :=
  if ledger.any (fun r => r.url = url) then
    ledger.map (fun r =>
      if r.url = url then
        { r with source := source,
                 title := match title with | some t => some t | none => r.title,
                 status := status }
      else r)
  else
    ledger ++ [{ url := url, source := source, title := title, status := status,
                 created_at := now }]

/-- `count_processed_since(since_iso=..., statuses=..., source=...)`:
`SELECT COUNT(1) ... WHERE created_at >= ? AND status IN (...)`, with the
optional source filter (Python applies it only `if source:`, so an empty
string behaves like `None`). -/
def count_processed_since (ledger : Ledger) (since : Nat) (statuses : List String)
    (source : Option String) : Nat :=
  let statuses_set := (statuses.filter (· ≠ "")).dedup
  if statuses_set = [] then 0
  else
    (ledger.filter (fun r =>
      decide (since ≤ r.created_at) && statuses_set.contains r.status &&
        (match source with
         | none => true
         | some s => if s = "" then true else r.source = s))).length

/-- `count_processed_today(statuses=..., source=...)` with `todayStart` the
UTC start-of-day threshold. -/
def count_processed_today (ledger : Ledger) (todayStart : Nat) (statuses : List String)
    (source : Option String) : Nat :=
  count_processed_since ledger todayStart statuses source

/-- `SELECT ... WHERE url = ?`: the row a URL resolves to, if any. -/
def findRec (ledger : Ledger) (url : String) : Option LedgerRecord :=
  ledger.find? (fun r => r.url = url)

/-! ## `modules/ai_engine.py` — pure helpers -/

/-- Whether the four characters starting here spell `</p>` case-insensitively
(the `re.finditer(r"</p>", html, flags=re.IGNORECASE)` pattern). -/
def isClosePAt : List Char → Bool
  | a :: b :: c :: d :: _ => a = '<' && b = '/' && c.toLower = 'p' && d = '>'
  | _ => false

/-- End positions (in code points, matching Python string indices) of all
`</p>` matches. -/
def closePEndsAux : List Char → Nat → List Nat
  | [], _ => []
  | l@(_ :: rest), i =>
    (if isClosePAt l then [i + 4] else []) ++ closePEndsAux rest (i + 1)

/-- All `</p>` match end positions in a string. -/
def closePEnds (html : String) : List Nat := closePEndsAux html.toList 0

/-- `inject_ad_block(html, ad_code, paragraph_index)`. Mirrors the Python
behaviour exactly, including the reachable `IndexError`: when
`paragraph_index ≤ 0` and the html contains no `</p>` at all, the guard
`len(matches) < paragraph_index` is false, and `matches[0]` raises. -/
def inject_ad_block (html ad_code : String) (paragraph_index : Int) : Except String String :=
  if html = "" ∨ ad_code = "" then .ok html
  else
    let ms := closePEnds html
    if (ms.length : Int) < paragraph_index then .ok (html ++ "\n" ++ ad_code)
    else
      let idx := (max 0 (paragraph_index - 1)).toNat
      match ms.get? idx with
      | none => .error "IndexError: list index out of range"
      | some pos =>
        .ok ((html.toList.take pos).asString ++ "\n" ++ ad_code ++ "\n" ++
             (html.toList.drop pos).asString)

/-- The built-in `SYSTEM_PROMPT` constant (the default system prompt). -/
def SYSTEM_PROMPT : String :=
  "Ты профессиональный SEO-редактор и веб-разработчик. Твоя задача — писать статьи на РУССКОМ языке. " ++
  "Ты должен вернуть ответ СТРОГО в формате JSON." ++
  "\n\n" ++
  "### ПРАВИЛА ОФОРМЛЕНИЯ (DESIGN SYSTEM):\n" ++
  "Твой HTML должен быть красивым и структурированным. Используй следующие классы:\n" ++
  "1. ВАЖНОЕ: Оборачивай ключевые мысли или предупреждения в <div class=\x27ai-alert\x27>...</div>\n" ++
  "2. ВЫВОДЫ: Блок с выводами в конце оборачивай в <div class=\x27ai-summary\x27>...</div>\n" ++
  "3. СПИСКИ: Если идет перечисление плюсов/минусов или фактов, используй <ul class=\x27ai-list\x27>...</ul>\n" ++
  "4. ТАБЛИЦЫ: Если данные можно представить таблицей, создай её с классом <table class=\x27ai-table\x27>\n" ++
  "5. ЗАГОЛОВКИ: Используй <h2> и <h3>. Никогда не используй <h1> (он уже есть на странице).\n" ++
  "\n\n" ++
  "### СТРУКТУРА JSON ОТВЕТА:\n" ++
  "\x7b\n" ++
  "  \"seo_title\": \"Кликбейтный заголовок для поисковиков (до 60 символов)\",\n" ++
  "  \"seo_description\": \"Meta description для сниппета (до 160 символов)\",\n" ++
  "  \"focus_keyword\": \"Главное ключевое слово (1-2 слова)\",\n" ++
  "  \"html_content\": \"Полный HTML код статьи с применением классов выше.\"\n" ++
  "\x7d"

/-- `build_article_system_prompt(settings, seed=...)`: the configured base
prompt (falling back to `SYSTEM_PROMPT` when blank) plus the resolved
profile's instruction block. -/
def build_article_system_prompt (settings : Settings) (seed : String) : String :=
  let base := pyStrip (settings.article_system_prompt.getD "")
  let base := if base = "" then SYSTEM_PROMPT else base
  let profile := resolve_profile settings seed
  base ++ "\n\n" ++ profile.prompt_block ++ "\n"

/-! ## Adapter item types and the effect environment -/

/-- A parsed feed entry as `fetch_latest_rss_items` reads it off the
`feedparser` result (`link`/`title` read with empty-string defaults;
`published`/`summary` with their `or`-chained fallbacks already applied). -/
structure RssEntry where
  link : String
  title : String
  published : Option String
  summary : Option String
deriving Repr, DecidableEq

/-- `RssItem` from `modules/rss_parser.py`. -/
structure RssItem where
  title : String
  link : String
  published : Option String
  summary : Option String
  source : String
deriving Repr, DecidableEq

/-- A video as returned by `fetch_latest_channel_videos`. -/
structure YtVideo where
  url : String
  channel : String
  published_at : String
  title : String
deriving Repr, DecidableEq

/-- A post as returned by `fetch_latest_channel_posts`. -/
structure TgPost where
  url : String
  text : String
deriving Repr, DecidableEq

/-- The article dictionary produced by the generators
(`{seo_title, seo_description, focus_keyword, html_content}`;
`seo_title` is read back with `.get`, hence optional). -/
structure Article where
  seo_title : Option String
  seo_description : String
  focus_keyword : String
  html_content : String
deriving Repr, DecidableEq

/-- The external world: every I/O-performing collaborator the orchestrator
calls, as an oracle. A call that can raise returns `Except String α` with
the exception text in the error. `lockHeld` is whether another process
holds the `autopilot` file lock; `today` is the start-of-day timestamp
used by `count_processed_today`; `now` is the timestamp
`mark_url_processed` stores. -/
structure Env where
  /-- `_parse_feed(feed_url)` (network fetch + feedparser), as the entry list. -/
  parseFeed : String → Except String (List RssEntry)
  /-- `fetch_latest_channel_videos(ch, api_key=..., limit=...)`. -/
  fetchYoutubeChannel : String → String → Nat → Except String (List YtVideo)
  /-- `fetch_latest_channel_posts(ch, settings, limit=...)`. -/
  fetchTelegramChannel : String → Nat → Except String (List TgPost)
  /-- `process_youtube_video(source_url, settings_for_publish)`; the second
  argument is the `wp_post_status` override carried by `settings_for_publish`. -/
  processYoutubeVideo : String → String → Except String Article
  /-- `generate_article(prompt=..., provider="openai", api_key=..., base_url=...,
  model_name=..., system_prompt=...)`; provider is always `"openai"` here. -/
  generateArticle : (prompt : String) → (api_key : String) → (base_url : Option String) →
    (model_name : String) → (system_prompt : String) → Except String Article
  /-- `publish_to_wordpress(settings_for_publish, article_data)`; the first
  argument is the `wp_post_status` carried by `settings_for_publish`. -/
  publishToWordpress : String → Article → Except String String
  lockHeld : Bool
  today : Nat
  now : Nat

/-! ## `modules/rss_parser.py` -/

/-- The per-feed body of `fetch_latest_rss_items`: skip blank URLs, fetch and
parse the feed — silently skipping the feed on ANY exception (`except
Exception: continue`, with no error reporting of any kind) — then take the
first `limit_per_feed` entries, dropping blank links and links already in
the ledger. -/
def rssFeedStep (env : Env) (ledger : Ledger) (limit_per_feed : Int)
    (acc : List RssItem) (feed_url : String) : List RssItem :=
  let feed_url := pyStrip feed_url
  if feed_url = "" then acc
  else
    match env.parseFeed feed_url with
    | .error _ => acc
    | .ok entries =>
      acc ++ (entries.take (max 0 limit_per_feed).toNat).filterMap (fun entry =>
        let link := pyStrip entry.link
        if link = "" then none
        else if is_url_processed ledger link then none
        else some { title := pyStrip entry.title, link := link,
                    published := entry.published, summary := entry.summary,
                    source := feed_url })

/-- `fetch_latest_rss_items(rss_urls, limit_per_feed=...)`. -/
def fetch_latest_rss_items (env : Env) (ledger : Ledger) (rss_urls : List String)
    (limit_per_feed : Int) : List RssItem :=
  rss_urls.foldl (rssFeedStep env ledger limit_per_feed) []

/-! ## `modules/autopilot.py` -/

/-- `AutopilotResult`. -/
structure AutopilotResult where
  processed : Nat
  published : Nat
  drafted : Nat
  skipped : Nat
  errors : Nat
  details : List String
deriving Repr, DecidableEq

/-- `_mode_to_wp_status(mode)`. -/
def mode_to_wp_status (mode : String) : Option String :=
  let m := pyLower (pyStrip mode)
  if m = "publish" then some "publish"
  else if m = "draft" then some "draft"
  else none

/-- The per-source metadata dict stored alongside each queued URL. -/
inductive Payload where
  | rss (title : String) (summary : Option String) (source : String)
  | youtube (channel : String) (published_at : String) (title : String)
  | telegram (text : String)
deriving Repr, DecidableEq

/-- One entry of the work queue: `(source_type, source_url, payload)`. -/
structure QueueItem where
  source_type : String
  url : String
  payload : Payload
deriving Repr, DecidableEq

/-- The source set before mode filtering: the explicit `sources` argument if
it is a non-empty list (`set(sources or [])`), otherwise the per-source
enable flags — whose defaults are asymmetric: `autopilot_rss_enabled`
defaults to `True`, the YouTube and Telegram flags to `False`. -/
def baseSelected (settings : Settings) (sources : Option (List String)) : List String :=
  let given := sources.getD []
  if given = [] then
    (if settings.autopilot_rss_enabled.getD true then ["rss"] else []) ++
    (if settings.autopilot_youtube_enabled.getD false then ["youtube"] else []) ++
    (if settings.autopilot_telegram_enabled.getD false then ["telegram"] else [])
  else given

/-- `wp_status_for_source` (the dict at lines 73–77; `.get` of an unknown
source type yields `None`). -/
def wpStatusFor (settings : Settings) (s : String) : Option String :=
  if s = "rss" then mode_to_wp_status (settings.autopilot_rss_mode.getD "draft")
  else if s = "youtube" then mode_to_wp_status (settings.autopilot_youtube_mode.getD "draft")
  else if s = "telegram" then mode_to_wp_status (settings.autopilot_telegram_mode.getD "draft")
  else none

/-- The effective source set: `{s for s in selected if wp_status_for_source.get(s) is not None}`. -/
def effectiveSelected (settings : Settings) (sources : Option (List String)) : List String :=
  (baseSelected settings sources).filter (fun s => (wpStatusFor settings s).isSome)

/-- Queue-assembly accumulator: the queue built so far plus the `details`
lines and `errors` count produced during discovery. -/
structure PhaseAcc where
  queue : List QueueItem
  details : List String
  errors : Nat
deriving Repr, DecidableEq

/-- The per-channel body of the YouTube discovery loop (lines 116–129):
blank channels are skipped; a discovery exception increments `errors` and
appends a detail line naming the channel, contributing no items; on
success the videos not yet in the ledger are queued. -/
def ytChannelStep (env : Env) (ledger : Ledger) (api_key : String) (limit : Nat)
    (acc : PhaseAcc) (ch : String) : PhaseAcc :=
  let ch := pyStrip ch
  if ch = "" then acc
  else
    match env.fetchYoutubeChannel ch api_key limit with
    | .error exc =>
      { acc with errors := acc.errors + 1,
                 details := acc.details ++ ["YouTube channel " ++ ch ++ ": discovery error: " ++ exc] }
    | .ok videos =>
      { acc with queue := acc.queue ++ videos.filterMap (fun v =>
          if is_url_processed ledger v.url then none
          else some { source_type := "youtube", url := v.url,
                      payload := .youtube v.channel v.published_at v.title }) }

/-- The per-channel body of the Telegram loop (lines 133–146), analogous. -/
def tgChannelStep (env : Env) (ledger : Ledger) (limit : Nat)
    (acc : PhaseAcc) (ch : String) : PhaseAcc :=
  let ch := pyStrip ch
  if ch = "" then acc
  else
    match env.fetchTelegramChannel ch limit with
    | .error exc =>
      { acc with errors := acc.errors + 1,
                 details := acc.details ++ ["Telegram " ++ ch ++ ": fetch error: " ++ exc] }
    | .ok posts =>
      { acc with queue := acc.queue ++ posts.filterMap (fun p =>
          if is_url_processed ledger p.url then none
          else some { source_type := "telegram", url := p.url, payload := .telegram p.text }) }

/-- Queue assembly (lines 100–146): RSS first, then YouTube, then Telegram,
each source contributing only if selected, each candidate filtered
against the ledger. -/
def assembleQueue (env : Env) (ledger : Ledger) (settings : Settings)
    (selected : List String) : PhaseAcc :=
  let acc : PhaseAcc := { queue := [], details := [], errors := 0 }
  let acc :=
    if selected.contains "rss" then
      let rss_limit_per_feed := natSetting settings.autopilot_rss_limit_per_feed 3
      let items := fetch_latest_rss_items env ledger settings.rss_sources rss_limit_per_feed
      { acc with queue := acc.queue ++ items.filterMap (fun item =>
          if is_url_processed ledger item.link then none
          else some { source_type := "rss", url := item.link,
                      payload := .rss item.title item.summary item.source }) }
    else acc
  let acc :=
    if selected.contains "youtube" then
      let api_key := pyStrip (settings.youtube_api_key.getD "")
      if api_key = "" then
        { acc with details := acc.details ++
            ["YouTube enabled but youtube_api_key is empty; skipping YouTube."] }
      else
        let lim := natSetting settings.autopilot_youtube_limit_per_channel 3
        settings.youtube_channels.foldl (ytChannelStep env ledger api_key lim) acc
    else acc
  let acc :=
    if selected.contains "telegram" then
      let lim := natSetting settings.autopilot_telegram_limit_per_channel 3
      settings.telegram_channels.foldl (tgChannelStep env ledger lim) acc
    else acc
  acc

/-- The RSS generation prompt (lines 170–176). -/
def rssPrompt (title : String) (summary : Option String) (feed : String)
    (source_url : String) : String :=
  "Сгенерируй статью по новости из RSS. Сохрани факты, перефразируй, сделай материал оригинальным.\n\n" ++
  "Источник (лента): " ++ feed ++ "\n" ++
  "Ссылка: " ++ source_url ++ "\n\n" ++
  "Заголовок: " ++ title ++ "\n\n" ++
  "Краткое описание/анонс:\n" ++ summary.getD ""

/-- The Telegram generation prompt (lines 186–191). -/
def tgPrompt (text : String) (source_url : String) : String :=
  "Сгенерируй статью по посту из Telegram-канала. " ++
  "Сохрани смысл, оформи как полноценную статью.\n\n" ++
  "Ссылка: " ++ source_url ++ "\n\n" ++
  "Текст поста:\n" ++ text

/-- `int(settings.get("ad_paragraph", 3) or 3)`: missing or `0` (falsy)
falls back to `3`. -/
def adParagraphArg (settings : Settings) : Int :=
  match settings.ad_paragraph with
  | none => 3
  | some v => if v = 0 then 3 else v

/-- The body of the per-item `try:` block (lines 166–209): generation
(per-source), optional ad injection, then publishing. Any step's raise is
the `Except.error`, carrying the exception text. -/
def itemPipeline (env : Env) (settings : Settings) (wp_status : String) (item : QueueItem) :
    Except String (Article × String) := do
  let article_data ←
    if item.source_type = "youtube" then
      env.processYoutubeVideo item.url wp_status
    else if item.source_type = "rss" then
      let (title, summary, feed) :=
        match item.payload with
        | .rss t s f => (t, s, f)
        | _ => ("", none, "")
      env.generateArticle (rssPrompt title summary feed item.url) settings.openai_api_key
        settings.base_url settings.model_name (build_article_system_prompt settings item.url)
    else
      let text := match item.payload with | .telegram t => t | _ => ""
      env.generateArticle (tgPrompt text item.url) settings.openai_api_key
        settings.base_url settings.model_name (build_article_system_prompt settings item.url)
  let article_data ←
    if settings.ad_code ≠ "" ∧ article_data.html_content ≠ "" then
      match inject_ad_block article_data.html_content settings.ad_code (adParagraphArg settings) with
      | .ok h => pure { article_data with html_content := h }
      | .error e => throw e
    else pure article_data
  let link ← env.publishToWordpress wp_status article_data
  pure (article_data, link)

/-- The mutable run state threaded through the per-item loop: the ledger plus
the counters and detail lines accumulated so far. -/
structure RunState where
  ledger : Ledger
  details : List String
  processed : Nat
  published : Nat
  drafted : Nat
  skipped : Nat
  errors : Nat
deriving Repr, DecidableEq

/-- One iteration of the per-item loop (lines 162–223), daily-cap check
excluded. On pipeline success: `processed` increments, exactly one of
`published`/`drafted` increments according to the resolved status, the
ledger is written exactly once via `mark_url_processed`, and a success
detail line is appended. On a raise from any pipeline step: `errors` and
`skipped` increment, an error detail line is appended, and the ledger is
untouched. -/
def processItem (env : Env) (settings : Settings) (st : RunState) (item : QueueItem) : RunState :=
  let wp_status := (wpStatusFor settings item.source_type).getD "draft"
  match itemPipeline env settings wp_status item with
  | .error exc =>
    { st with errors := st.errors + 1, skipped := st.skipped + 1,
              details := st.details ++ [item.source_type ++ ": " ++ item.url ++ " error: " ++ exc] }
  | .ok (article_data, link) =>
    let st := { st with processed := st.processed + 1 }
    let st :=
      if wp_status = "publish" then
        { st with published := st.published + 1,
                  ledger := mark_url_processed st.ledger item.url item.source_type
                    article_data.seo_title "published" env.now }
      else
        { st with drafted := st.drafted + 1,
                  ledger := mark_url_processed st.ledger item.url item.source_type
                    article_data.seo_title "draft" env.now }
    { st with details := st.details ++
        [item.source_type ++ ": " ++ item.url ++ " -> " ++ wp_status ++ " (" ++ link ++ ")"] }

/-- The per-item loop: before each item, when `daily_limit_total` is nonzero,
re-count today's published+draft rows against the cap and break (appending
a detail line) once reached; otherwise process the item and continue. -/
def processLoop (env : Env) (settings : Settings) (daily_limit_total : Nat) :
    RunState → List QueueItem → RunState
  | st, [] => st
  | st, item :: rest =>
    if 0 < daily_limit_total then
      let already_today := count_processed_today st.ledger env.today ["published", "draft"] none
      if daily_limit_total ≤ already_today then
        { st with details := st.details ++
            ["Daily limit reached during run: " ++ toString already_today ++ "/" ++
             toString daily_limit_total ++ "."] }
      else processLoop env settings daily_limit_total (processItem env settings st item) rest
    else processLoop env settings daily_limit_total (processItem env settings st item) rest

/-- An `AutopilotResult` with all five counters at zero and the given single
detail line (each early exit returns one of these). -/
def zeroResult (line : String) : AutopilotResult :=
  { processed := 0, published := 0, drafted := 0, skipped := 0, errors := 0, details := [line] }

/-- The run state the loop starts from: counters zeroed except for the
discovery `errors` and `details` carried over from queue assembly. -/
def initialRunState (ledger : Ledger) (acc : PhaseAcc) : RunState :=
  { ledger := ledger, details := acc.details, processed := 0, published := 0,
    drafted := 0, skipped := 0, errors := acc.errors }

/-- Packaging the final loop state as the returned `AutopilotResult` plus
final ledger. -/
def stateResult (st : RunState) : AutopilotResult × Ledger :=
  ({ processed := st.processed, published := st.published, drafted := st.drafted,
     skipped := st.skipped, errors := st.errors, details := st.details }, st.ledger)

/-- The body of `run_autopilot_once` after the "autopilot disabled" early
return (everything from line 52 of `modules/autopilot.py` on). -/
def runEnabled (env : Env) (ledger : Ledger) (settings : Settings)
    (sources : Option (List String)) : Except String (AutopilotResult × Ledger) :=
  let max_per_run := natSetting settings.autopilot_max_per_run 3
    let daily_limit_total := natSetting settings.autopilot_daily_limit_total 10
    let selected := effectiveSelected settings sources
    if selected = [] then
      .ok (zeroResult "No sources selected or all sources are set to off.", ledger)
    else
      let already_today := count_processed_today ledger env.today ["published", "draft"] none
      if 0 < daily_limit_total ∧ daily_limit_total ≤ already_today then
        .ok (zeroResult ("Daily limit reached: " ++ toString already_today ++ "/" ++
              toString daily_limit_total ++ " (published+draft)."), ledger)
      else if env.lockHeld then
        .error "Autopilot is already running (lock is held)."
      else
        let acc := assembleQueue env ledger settings selected
        if acc.queue = [] then
          .ok (zeroResult "No new items found.", ledger)
        else
          let queue := if 0 < max_per_run then acc.queue.take max_per_run else acc.queue
          let st := processLoop env settings daily_limit_total (initialRunState ledger acc) queue
          .ok (stateResult st)

/-- `run_autopilot_once(settings, sources=...)`. Returns the result paired
with the final ledger; `Except.error` is an exception escaping to the
caller (only the lock-contention `RuntimeError` does). -/
def run_autopilot_once (env : Env) (ledger : Ledger) (settings : Settings)
    (sources : Option (List String)) : Except String (AutopilotResult × Ledger) :=
  let enabled_global := settings.autopilot_enabled.getD false
  if enabled_global = false ∧ sources = none then
    .ok (zeroResult "Autopilot is disabled (autopilot_enabled=false).", ledger)
  else
    runEnabled env ledger settings sources

/-! ## Theorems -/

set_option maxRecDepth 10000

/-- `processItem` preserves `processed = published + drafted` and
`skipped ≤ errors`. -/
lemma processItem_counts (env : Env) (settings : Settings) (st : RunState) (item : QueueItem)
    (h1 : st.processed = st.published + st.drafted) (h2 : st.skipped ≤ st.errors) :
    (processItem env settings st item).processed =
        (processItem env settings st item).published + (processItem env settings st item).drafted ∧
      (processItem env settings st item).skipped ≤ (processItem env settings st item).errors := by
  cases hp : itemPipeline env settings ((wpStatusFor settings item.source_type).getD "draft") item with
  | error e =>
    simp [processItem, hp, h1]
    omega
  | ok v =>
    obtain ⟨a, link⟩ := v
    simp only [processItem, hp]
    by_cases hw : (wpStatusFor settings item.source_type).getD "draft" = "publish" <;>
      simp [hw, h1, h2] <;> omega

/-- The per-item loop preserves the two counter relations. -/
lemma processLoop_counts (env : Env) (settings : Settings) (dl : Nat) :
    ∀ (q : List QueueItem) (st : RunState),
    st.processed = st.published + st.drafted → st.skipped ≤ st.errors →
    (processLoop env settings dl st q).processed =
        (processLoop env settings dl st q).published + (processLoop env settings dl st q).drafted ∧
      (processLoop env settings dl st q).skipped ≤ (processLoop env settings dl st q).errors := by
  intro q
  induction q with
  | nil =>
    intro st h1 h2
    simpa [processLoop] using ⟨h1, h2⟩
  | cons item rest ih =>
    intro st h1 h2
    unfold processLoop
    by_cases hdl : 0 < dl
    · by_cases hlim : dl ≤ count_processed_today st.ledger env.today ["published", "draft"] none
      · simp [hdl, hlim, h1, h2]
      · simpa [hdl, hlim] using ih _ (processItem_counts env settings st item h1 h2).1
          (processItem_counts env settings st item h1 h2).2
    · simpa [hdl] using ih _ (processItem_counts env settings st item h1 h2).1
        (processItem_counts env settings st item h1 h2).2

/-- C1. Every `AutopilotResult` returned by `run_autopilot_once` — under any
combination of adapter results, per-item successes/failures and cap
settings (all universally quantified through `env`, `ledger`, `settings`
and `sources`) — satisfies `processed = published + drafted` and
`errors ≥ skipped`. -/
theorem counter_invariant (env : Env) (ledger : Ledger) (settings : Settings)
    (sources : Option (List String)) (r : AutopilotResult) (l' : Ledger)
    (h : run_autopilot_once env ledger settings sources = .ok (r, l')) :
    r.processed = r.published + r.drafted ∧ r.skipped ≤ r.errors := by
  simp only [run_autopilot_once, runEnabled] at h
  split at h
  · simp [zeroResult, Prod.ext_iff] at h
    obtain ⟨hr, -⟩ := h
    simp [← hr]
  · split at h
    · simp [zeroResult, Prod.ext_iff] at h
      obtain ⟨hr, -⟩ := h
      simp [← hr]
    · split at h
      · simp [zeroResult, Prod.ext_iff] at h
        obtain ⟨hr, -⟩ := h
        simp [← hr]
      · split at h
        · exact absurd h (by simp)
        · split at h
          · simp [zeroResult, Prod.ext_iff] at h
            obtain ⟨hr, -⟩ := h
            simp [← hr]
          · simp only [stateResult, Except.ok.injEq, Prod.mk.injEq] at h
            obtain ⟨hr, -⟩ := h
            have hmain := processLoop_counts env settings
              (natSetting settings.autopilot_daily_limit_total 10)
              (if 0 < natSetting settings.autopilot_max_per_run 3 then
                List.take (natSetting settings.autopilot_max_per_run 3)
                  (assembleQueue env ledger settings (effectiveSelected settings sources)).queue
               else (assembleQueue env ledger settings (effectiveSelected settings sources)).queue)
              (initialRunState ledger (assembleQueue env ledger settings
                (effectiveSelected settings sources)))
              (by simp [initialRunState]) (by simp [initialRunState])
            rw [← hr]
            simpa using hmain

/-- A concrete article used by the witness environments. -/
def artW : Article :=
  { seo_title := some "T", seo_description := "", focus_keyword := "", html_content := "<p>x</p>" }

/-- A concrete environment for witnesses and counterexamples: feed `f1`
fails to download/parse, feed `f2` yields one fresh entry, YouTube and
Telegram discovery raise, generation and publishing succeed. -/
def envW : Env where
  parseFeed f :=
    if f = "f1" then .error "boom"
    else if f = "f2" then .ok [{ link := "u1", title := "T1", published := none, summary := none }]
    else .ok []
  fetchYoutubeChannel _ _ _ := .error "ytboom"
  fetchTelegramChannel _ _ := .error "tgboom"
  processYoutubeVideo _ _ := .error "nogen"
  generateArticle _ _ _ _ _ := .ok artW
  publishToWordpress _ _ := .ok "L"
  lockHeld := false
  today := 0
  now := 5

/-- Concrete settings: autopilot on, two RSS feeds, everything else default. -/
def setW : Settings := { autopilot_enabled := some true, rss_sources := ["f1", "f2"] }

/-- The result `run_autopilot_once envW [] setW none` produces. -/
def resW : AutopilotResult :=
  { processed := 1, published := 0, drafted := 1, skipped := 0, errors := 0,
    details := ["rss: u1 -> draft (L)"] }

/-- The ledger `run_autopilot_once envW [] setW none` leaves behind. -/
def ledW : Ledger :=
  [{ url := "u1", source := "rss", title := some "T", status := "draft", created_at := 5 }]

/-- C1 witness: a complete concrete run satisfying the invariant. -/
theorem counter_invariant_witness :
    run_autopilot_once envW [] setW none = .ok (resW, ledW) ∧
      (resW.processed = resW.published + resW.drafted ∧ resW.skipped ≤ resW.errors) :=
  ⟨rfl, counter_invariant envW [] setW none resW ledW rfl⟩

/-- C2. Per queued item: the ledger is written exactly once — via
`mark_url_processed`, with the status matching the resolved mode — and only
when the whole generate→inject→publish pipeline succeeds; when any of those
steps raises, the item adds one to `errors` and one to `skipped`, appends a
detail line with source, URL and error text, leaves the ledger untouched,
and the loop goes on to the next item. -/
theorem per_item_ledger_discipline (env : Env) (settings : Settings) (dl : Nat)
    (st : RunState) (item : QueueItem) (rest : List QueueItem) :
    (∀ e, itemPipeline env settings ((wpStatusFor settings item.source_type).getD "draft") item
          = .error e →
        processItem env settings st item =
          { st with errors := st.errors + 1, skipped := st.skipped + 1,
                    details := st.details ++
                      [item.source_type ++ ": " ++ item.url ++ " error: " ++ e] }) ∧
    (∀ a link, itemPipeline env settings ((wpStatusFor settings item.source_type).getD "draft") item
          = .ok (a, link) →
        processItem env settings st item =
          { st with
              processed := st.processed + 1,
              published := st.published +
                (if (wpStatusFor settings item.source_type).getD "draft" = "publish" then 1 else 0),
              drafted := st.drafted +
                (if (wpStatusFor settings item.source_type).getD "draft" = "publish" then 0 else 1),
              ledger := mark_url_processed st.ledger item.url item.source_type a.seo_title
                (if (wpStatusFor settings item.source_type).getD "draft" = "publish" then "published"
                 else "draft") env.now,
              details := st.details ++
                [item.source_type ++ ": " ++ item.url ++ " -> " ++
                 (wpStatusFor settings item.source_type).getD "draft" ++ " (" ++ link ++ ")"] }) ∧
    ((0 < dl → count_processed_today st.ledger env.today ["published", "draft"] none < dl) →
        processLoop env settings dl st (item :: rest) =
          processLoop env settings dl (processItem env settings st item) rest) := by
  refine ⟨?_, ?_, ?_⟩
  · intro e he
    simp [processItem, he]
  · intro a link hok
    by_cases hw : (wpStatusFor settings item.source_type).getD "draft" = "publish"
    · rw [hw] at hok
      simp [processItem, hok, hw]
    · simp [processItem, hok, hw]
  · intro hguard
    by_cases hdl : 0 < dl
    · have hnle : ¬(dl ≤ count_processed_today st.ledger env.today ["published", "draft"] none) := by
        have := hguard hdl
        omega
      conv_lhs => rw [processLoop]
      simp [hdl, hnle]
    · conv_lhs => rw [processLoop]
      simp [hdl]

/-- An environment identical to `envW` except that article generation raises. -/
def envWerr : Env := { envW with generateArticle := fun _ _ _ _ _ => .error "genboom" }

/-- The RSS queue item produced from feed `f2` in the witness runs. -/
def itemRss : QueueItem := { source_type := "rss", url := "u1", payload := .rss "T1" none "f2" }

/-- The empty starting run state used by the witnesses. -/
def stW : RunState :=
  { ledger := [], details := [], processed := 0, published := 0, drafted := 0,
    skipped := 0, errors := 0 }

/-- C2 witness: one failing item (generation raises) and one succeeding item,
plus the loop-continuation equation, all at concrete inputs. -/
theorem per_item_ledger_discipline_witness :
    (itemPipeline envWerr setW "draft" itemRss = .error "genboom" ∧
      processItem envWerr setW stW itemRss =
        { ledger := [], details := ["rss: u1 error: genboom"], processed := 0, published := 0,
          drafted := 0, skipped := 1, errors := 1 }) ∧
    (itemPipeline envW setW "draft" itemRss = .ok (artW, "L") ∧
      processItem envW setW stW itemRss =
        { ledger := [{ url := "u1", source := "rss", title := some "T", status := "draft",
                       created_at := 5 }],
          details := ["rss: u1 -> draft (L)"], processed := 1, published := 0, drafted := 1,
          skipped := 0, errors := 0 }) ∧
    processLoop envW setW 10 stW [itemRss] =
      processLoop envW setW 10 (processItem envW setW stW itemRss) [] := by
  refine ⟨⟨rfl, ?_⟩, ⟨rfl, ?_⟩, ?_⟩
  · exact (per_item_ledger_discipline envWerr setW 10 stW itemRss []).1 "genboom" rfl
  · exact (per_item_ledger_discipline envW setW 10 stW itemRss []).2.1 artW "L" rfl
  · exact (per_item_ledger_discipline envW setW 10 stW itemRss []).2.2 (fun _ => by decide)

/-- C3. With a nonzero daily limit already met by today's published+draft
count, `run_autopilot_once` returns the all-zero result with the single
daily-limit line and the ledger unchanged — for EVERY environment, in
particular whatever `env.lockHeld` and the adapter oracles are, showing the
lock is never taken and no adapter/generator/publisher is consulted. -/
theorem daily_limit_precheck (env : Env) (ledger : Ledger) (settings : Settings)
    (sources : Option (List String))
    (h1 : ¬(settings.autopilot_enabled.getD false = false ∧ sources = none))
    (h2 : effectiveSelected settings sources ≠ [])
    (h3 : 0 < natSetting settings.autopilot_daily_limit_total 10)
    (h4 : natSetting settings.autopilot_daily_limit_total 10 ≤
      count_processed_today ledger env.today ["published", "draft"] none) :
    run_autopilot_once env ledger settings sources =
      .ok (zeroResult ("Daily limit reached: " ++
            toString (count_processed_today ledger env.today ["published", "draft"] none) ++ "/" ++
            toString (natSetting settings.autopilot_daily_limit_total 10) ++
            " (published+draft)."), ledger) := by
  simp only [run_autopilot_once, runEnabled]
  rw [if_neg h1, if_neg h2, if_pos ⟨h3, h4⟩]

/-- A ledger holding one record published today (at `envW.today = 0`). -/
def ledPub : Ledger :=
  [{ url := "z", source := "rss", title := none, status := "published", created_at := 3 }]

/-- C3 witness: `dailyLimitTotal = 1` with one item already published today,
and the lock even held — the run still reports the daily limit. -/
theorem daily_limit_precheck_witness :
    run_autopilot_once { envW with lockHeld := true } ledPub
        { setW with autopilot_daily_limit_total := some 1 } none =
      .ok (zeroResult "Daily limit reached: 1/1 (published+draft).", ledPub) :=
  daily_limit_precheck { envW with lockHeld := true } ledPub
    { setW with autopilot_daily_limit_total := some 1 } none
    (by decide) (by decide) (by decide) (by decide)

/-- C6. When every pre-lock guard passes and another holder has the lock,
`run_autopilot_once` propagates the distinct "already running" error to its
caller instead of returning any `AutopilotResult`. -/
theorem lock_contention_propagates (env : Env) (ledger : Ledger) (settings : Settings)
    (sources : Option (List String))
    (h1 : ¬(settings.autopilot_enabled.getD false = false ∧ sources = none))
    (h2 : effectiveSelected settings sources ≠ [])
    (h3 : ¬(0 < natSetting settings.autopilot_daily_limit_total 10 ∧
        natSetting settings.autopilot_daily_limit_total 10 ≤
          count_processed_today ledger env.today ["published", "draft"] none))
    (h4 : env.lockHeld = true) :
    run_autopilot_once env ledger settings sources =
      .error "Autopilot is already running (lock is held)." := by
  simp only [run_autopilot_once, runEnabled]
  rw [if_neg h1, if_neg h2, if_neg h3, if_pos h4]

/-- C6 witness: a concrete contended run. -/
theorem lock_contention_propagates_witness :
    run_autopilot_once { envW with lockHeld := true } [] setW none =
      .error "Autopilot is already running (lock is held)." :=
  lock_contention_propagates { envW with lockHeld := true } [] setW none
    (by decide) (by decide) (by decide) rfl

/-- `processItem` increments `processed` by at most one. -/
lemma processItem_processed_le (env : Env) (settings : Settings) (st : RunState)
    (item : QueueItem) :
    (processItem env settings st item).processed ≤ st.processed + 1 := by
  cases hp : itemPipeline env settings ((wpStatusFor settings item.source_type).getD "draft") item with
  | error e => simp [processItem, hp]
  | ok v =>
    obtain ⟨a, link⟩ := v
    simp only [processItem, hp]
    by_cases hw : (wpStatusFor settings item.source_type).getD "draft" = "publish" <;> simp [hw]

/-- The loop processes at most one item per queue entry. -/
lemma processLoop_processed_le (env : Env) (settings : Settings) (dl : Nat) :
    ∀ (q : List QueueItem) (st : RunState),
    (processLoop env settings dl st q).processed ≤ st.processed + q.length := by
  intro q
  induction q with
  | nil => intro st; simp [processLoop]
  | cons item rest ih =>
    intro st
    have hstep : (processLoop env settings dl (processItem env settings st item) rest).processed ≤
        st.processed + 1 + rest.length := by
      have h1 := ih (processItem env settings st item)
      have h2 := processItem_processed_le env settings st item
      omega
    conv_lhs => rw [processLoop]
    by_cases hdl : 0 < dl
    · rw [if_pos hdl]
      by_cases hlim : dl ≤ count_processed_today st.ledger env.today ["published", "draft"] none
      · rw [if_pos hlim]
        simp
      · rw [if_neg hlim]
        simp only [List.length_cons]
        omega
    · rw [if_neg hdl]
      simp only [List.length_cons]
      omega

/-- C7. When all pre-loop guards pass and the queue is nonempty: with a
nonzero `maxPerRun` the loop runs on exactly the first `maxPerRun` entries
of the assembled queue (`List.take`, hence a prefix of the deterministic
queue order) and at most `maxPerRun` items end up processed; with
`maxPerRun = 0` the queue is not truncated at all. -/
theorem cap_truncation (env : Env) (ledger : Ledger) (settings : Settings)
    (sources : Option (List String))
    (h1 : ¬(settings.autopilot_enabled.getD false = false ∧ sources = none))
    (h2 : effectiveSelected settings sources ≠ [])
    (h3 : ¬(0 < natSetting settings.autopilot_daily_limit_total 10 ∧
        natSetting settings.autopilot_daily_limit_total 10 ≤
          count_processed_today ledger env.today ["published", "draft"] none))
    (h4 : env.lockHeld = false)
    (h5 : (assembleQueue env ledger settings (effectiveSelected settings sources)).queue ≠ []) :
    run_autopilot_once env ledger settings sources =
      .ok (stateResult (processLoop env settings
        (natSetting settings.autopilot_daily_limit_total 10)
        (initialRunState ledger (assembleQueue env ledger settings (effectiveSelected settings sources)))
        (if 0 < natSetting settings.autopilot_max_per_run 3 then
          List.take (natSetting settings.autopilot_max_per_run 3)
            (assembleQueue env ledger settings (effectiveSelected settings sources)).queue
         else (assembleQueue env ledger settings (effectiveSelected settings sources)).queue))) ∧
    List.IsPrefix
      (if 0 < natSetting settings.autopilot_max_per_run 3 then
        List.take (natSetting settings.autopilot_max_per_run 3)
          (assembleQueue env ledger settings (effectiveSelected settings sources)).queue
       else (assembleQueue env ledger settings (effectiveSelected settings sources)).queue)
      (assembleQueue env ledger settings (effectiveSelected settings sources)).queue ∧
    (0 < natSetting settings.autopilot_max_per_run 3 →
      (processLoop env settings (natSetting settings.autopilot_daily_limit_total 10)
        (initialRunState ledger (assembleQueue env ledger settings (effectiveSelected settings sources)))
        (if 0 < natSetting settings.autopilot_max_per_run 3 then
          List.take (natSetting settings.autopilot_max_per_run 3)
            (assembleQueue env ledger settings (effectiveSelected settings sources)).queue
         else (assembleQueue env ledger settings (effectiveSelected settings sources)).queue)).processed ≤
        natSetting settings.autopilot_max_per_run 3) := by
  refine ⟨?_, ?_, ?_⟩
  · simp only [run_autopilot_once, runEnabled]
    rw [if_neg h1, if_neg h2, if_neg h3, h4]
    rw [if_neg Bool.false_ne_true]
    exact if_neg h5
  · by_cases hcap : 0 < natSetting settings.autopilot_max_per_run 3
    · rw [if_pos hcap]
      exact List.take_prefix _ _
    · rw [if_neg hcap]
  · intro hcap
    rw [if_pos hcap]
    have hle := processLoop_processed_le env settings
      (natSetting settings.autopilot_daily_limit_total 10)
      (List.take (natSetting settings.autopilot_max_per_run 3)
        (assembleQueue env ledger settings (effectiveSelected settings sources)).queue)
      (initialRunState ledger (assembleQueue env ledger settings (effectiveSelected settings sources)))
    have hlen : (List.take (natSetting settings.autopilot_max_per_run 3)
        (assembleQueue env ledger settings (effectiveSelected settings sources)).queue).length ≤
        natSetting settings.autopilot_max_per_run 3 := by
      simp [List.length_take]
    have h0 : (initialRunState ledger
        (assembleQueue env ledger settings (effectiveSelected settings sources))).processed = 0 := rfl
    omega

/-- An environment whose feeds `f2` and `f3` each yield one fresh item. -/
def envW3 : Env :=
  { envW with parseFeed := fun f =>
      if f = "f2" then .ok [{ link := "u1", title := "T1", published := none, summary := none }]
      else if f = "f3" then .ok [{ link := "u2", title := "T2", published := none, summary := none }]
      else .ok [] }

/-- Settings with two feeds and `maxPerRun = 1`. -/
def setW3 : Settings :=
  { setW with rss_sources := ["f2", "f3"], autopilot_max_per_run := some 1 }

/-- C7 witness: two eligible fresh items but `maxPerRun = 1` — the truncated
queue is a prefix of the assembled one and at most one item is processed. -/
theorem cap_truncation_witness :
    List.IsPrefix
        (List.take 1 (assembleQueue envW3 [] setW3 (effectiveSelected setW3 none)).queue)
        (assembleQueue envW3 [] setW3 (effectiveSelected setW3 none)).queue ∧
      (processLoop envW3 setW3 10
        (initialRunState [] (assembleQueue envW3 [] setW3 (effectiveSelected setW3 none)))
        (List.take 1 (assembleQueue envW3 [] setW3 (effectiveSelected setW3 none)).queue)).processed ≤ 1 := by
  have h := cap_truncation envW3 [] setW3 none (by decide) (by decide) (by decide) rfl (by decide)
  exact ⟨h.2.1, h.2.2 (by decide)⟩

/-- C8. Mode resolution: after trimming and lowercasing, `"publish"` maps to
WordPress status `publish`, `"draft"` to `draft`, anything else to `None`;
the map is applied independently per source; and when the effective source
set is empty the run returns the all-zero "no sources" result with the
ledger unchanged, for every environment (hence no adapter call and no
ledger write). -/
theorem mode_resolution (env : Env) (ledger : Ledger) (settings : Settings)
    (sources : Option (List String)) (m : String) :
    (pyLower (pyStrip m) = "publish" → mode_to_wp_status m = some "publish") ∧
    (pyLower (pyStrip m) = "draft" → mode_to_wp_status m = some "draft") ∧
    (pyLower (pyStrip m) ≠ "publish" → pyLower (pyStrip m) ≠ "draft" →
      mode_to_wp_status m = none) ∧
    (wpStatusFor settings "rss" = mode_to_wp_status (settings.autopilot_rss_mode.getD "draft") ∧
      wpStatusFor settings "youtube" =
        mode_to_wp_status (settings.autopilot_youtube_mode.getD "draft") ∧
      wpStatusFor settings "telegram" =
        mode_to_wp_status (settings.autopilot_telegram_mode.getD "draft")) ∧
    (¬(settings.autopilot_enabled.getD false = false ∧ sources = none) →
      effectiveSelected settings sources = [] →
      run_autopilot_once env ledger settings sources =
        .ok (zeroResult "No sources selected or all sources are set to off.", ledger)) := by
  refine ⟨?_, ?_, ?_, ⟨rfl, rfl, rfl⟩, ?_⟩
  · intro h
    simp [mode_to_wp_status, h]
  · intro h
    simp [mode_to_wp_status, h]
  · intro h1 h2
    simp [mode_to_wp_status, h1, h2]
  · intro h1 h2
    simp only [run_autopilot_once, runEnabled]
    rw [if_neg h1, if_pos h2]

/-- Settings whose only selected source resolves to mode "off". -/
def setOff : Settings := { autopilot_enabled := some true, autopilot_rss_mode := some "off" }

/-- C8 witness: the three mode mappings at concrete strings, and a concrete
run whose effective source set is empty. -/
theorem mode_resolution_witness :
    mode_to_wp_status " Publish " = some "publish" ∧
      mode_to_wp_status "DRAFT" = some "draft" ∧
      mode_to_wp_status "off" = none ∧
      run_autopilot_once envW [] setOff none =
        .ok (zeroResult "No sources selected or all sources are set to off.", []) :=
  ⟨(mode_resolution envW [] setOff none " Publish ").1 (by decide),
    (mode_resolution envW [] setOff none "DRAFT").2.1 (by decide),
    (mode_resolution envW [] setOff none "off").2.2.1 (by decide) (by decide),
    (mode_resolution envW [] setOff none "").2.2.2.2 (by decide) (by decide)⟩

/-- C9. An explicit empty `sources` list is not `None`: with the global flag
absent/false, `sources = None` takes the "autopilot disabled" early exit,
but `sources = []` bypasses it (the run proceeds into the enabled body),
and source selection then falls back to the per-source enable flags, whose
defaults are asymmetric — with all three flags absent the base selection
is exactly `["rss"]`. -/
theorem empty_sources_bypasses_disabled (env : Env) (ledger : Ledger) (settings : Settings)
    (h : settings.autopilot_enabled.getD false = false) :
    run_autopilot_once env ledger settings none =
      .ok (zeroResult "Autopilot is disabled (autopilot_enabled=false).", ledger) ∧
    run_autopilot_once env ledger settings (some []) = runEnabled env ledger settings (some []) ∧
    (settings.autopilot_rss_enabled = none → settings.autopilot_youtube_enabled = none →
      settings.autopilot_telegram_enabled = none → baseSelected settings (some []) = ["rss"]) := by
  refine ⟨?_, ?_, ?_⟩
  · simp only [run_autopilot_once]
    rw [if_pos ⟨h, trivial⟩]
  · have hL : ¬(settings.autopilot_enabled.getD false = false ∧
        (some [] : Option (List String)) = none) := by simp
    simp only [run_autopilot_once]
    rw [if_neg hL]
  · intro hr hy ht
    simp [baseSelected, hr, hy, ht]

/-- C9 witness: fully default settings (global flag absent, hence false). -/
theorem empty_sources_bypasses_disabled_witness :
    run_autopilot_once envW [] {} none =
        .ok (zeroResult "Autopilot is disabled (autopilot_enabled=false).", []) ∧
      run_autopilot_once envW [] {} (some []) = runEnabled envW [] {} (some []) ∧
      baseSelected {} (some []) = ["rss"] :=
  ⟨(empty_sources_bypasses_disabled envW [] {} rfl).1,
    (empty_sources_bypasses_disabled envW [] {} rfl).2.1,
    (empty_sources_bypasses_disabled envW [] {} rfl).2.2 rfl rfl rfl⟩

/-- The conflict branch of the upsert, seen through `findRec`: the updated
row keeps its `created_at` (and its `title` when no new one is given). -/
lemma findRec_map_conflict (url source status : String) (title : Option String) :
    ∀ (l : Ledger) (r : LedgerRecord), findRec l url = some r →
    findRec (l.map (fun q =>
      if q.url = url then
        { q with source := source,
                 title := match title with | some t => some t | none => q.title,
                 status := status }
      else q)) url =
      some { r with source := source, status := status,
                    title := match title with | some t => some t | none => r.title } := by
  intro l
  induction l with
  | nil =>
    intro r h
    simp [findRec] at h
  | cons x xs ih =>
    intro r h
    by_cases hx : x.url = url
    · have hxr : x = r := by
        simpa [findRec, List.find?_cons_of_pos, hx] using h
      subst hxr
      simp [findRec, List.find?_cons_of_pos, hx]
    · have h' : findRec xs url = some r := by
        simpa [findRec, List.find?_cons_of_neg, hx] using h
      have := ih r h'
      simpa [findRec, List.find?_cons_of_neg, hx] using this

/-- C10. Re-marking a URL already in the ledger updates its `source` and
`status`, replaces its `title` only when the new title is non-null, and
leaves the stored `created_at` untouched (the upsert's conflict branch has
no `created_at` assignment), so a re-mark never moves the record into a
different day for the daily published+draft count. -/
theorem upsert_preserves_created_at (ledger : Ledger) (url source : String)
    (title : Option String) (status : String) (now : Nat) (r : LedgerRecord)
    (h : findRec ledger url = some r) :
    findRec (mark_url_processed ledger url source title status now) url =
      some { r with source := source, status := status,
                    title := match title with | some t => some t | none => r.title } := by
  have h' : List.find? (fun q => q.url = url) ledger = some r := h
  have hmem : r ∈ ledger := List.mem_of_find?_eq_some h'
  have hany : ledger.any (fun q => q.url = url) = true :=
    List.any_eq_true.mpr ⟨r, hmem, by simpa using List.find?_some h'⟩
  unfold mark_url_processed
  rw [if_pos hany]
  exact findRec_map_conflict url source status title ledger r h

/-- C10 witness: re-marking `u1` (created at time 5) at time 9 with a new
status and no title keeps `created_at = 5` and the old title. -/
theorem upsert_preserves_created_at_witness :
    findRec (mark_url_processed ledW "u1" "telegram" none "published" 9) "u1" =
      some { url := "u1", source := "telegram", title := some "T", status := "published",
             created_at := 5 } :=
  upsert_preserves_created_at ledW "u1" "telegram" none "published" 9
    { url := "u1", source := "rss", title := some "T", status := "draft", created_at := 5 } rfl

/-- C4 counterexample: in `envW`, downloading/parsing feed `f1` raises, yet
the completed run reports `errors = 0` and a detail list naming `f1`
nowhere — the per-feed `except Exception: continue` inside
`fetch_latest_rss_items` swallows the failure with no error accounting,
unlike the YouTube/Telegram discovery branches. -/
theorem rss_error_swallowed_counterexample :
    envW.parseFeed "f1" = .error "boom" ∧
      setW.rss_sources = ["f1", "f2"] ∧
      run_autopilot_once envW [] setW none = .ok (resW, ledW) ∧
      resW.errors = 0 ∧
      resW.details = ["rss: u1 -> draft (L)"] :=
  ⟨rfl, rfl, rfl, rfl, rfl⟩

/-- C4 (amended). YouTube and Telegram discovery/fetch errors are caught per
channel: each adds one to `errors`, appends a detail line naming the
channel, contributes zero queue items, and the fold over the remaining
channels continues. An RSS feed's fetch/parse error, by contrast, is
swallowed silently inside `fetch_latest_rss_items`: the feed contributes
zero items and the run continues, but nothing is counted or logged. -/
theorem discovery_error_isolation (env : Env) (ledger : Ledger) (api_key : String)
    (limit : Nat) (limF : Int) (acc : PhaseAcc) (items : List RssItem)
    (ch feed : String) (rest : List String) (e : String) :
    (pyStrip ch ≠ "" → env.fetchYoutubeChannel (pyStrip ch) api_key limit = .error e →
      ytChannelStep env ledger api_key limit acc ch =
        { acc with errors := acc.errors + 1,
                   details := acc.details ++
                     ["YouTube channel " ++ pyStrip ch ++ ": discovery error: " ++ e] }) ∧
    (pyStrip ch ≠ "" → env.fetchTelegramChannel (pyStrip ch) limit = .error e →
      tgChannelStep env ledger limit acc ch =
        { acc with errors := acc.errors + 1,
                   details := acc.details ++
                     ["Telegram " ++ pyStrip ch ++ ": fetch error: " ++ e] }) ∧
    (pyStrip feed ≠ "" → env.parseFeed (pyStrip feed) = .error e →
      rssFeedStep env ledger limF items feed = items) ∧
    ((ch :: rest).foldl (ytChannelStep env ledger api_key limit) acc =
      rest.foldl (ytChannelStep env ledger api_key limit)
        (ytChannelStep env ledger api_key limit acc ch)) := by
  refine ⟨?_, ?_, ?_, rfl⟩
  · intro h1 h2
    simp [ytChannelStep, h1, h2]
  · intro h1 h2
    simp [tgChannelStep, h1, h2]
  · intro h1 h2
    simp [rssFeedStep, h1, h2]

/-- C4 witness: concrete per-channel YouTube and Telegram failures are
counted and logged; a concrete failing RSS feed contributes nothing and
leaves the accumulator untouched. -/
theorem discovery_error_isolation_witness :
    ytChannelStep envW [] "K" 3 { queue := [], details := [], errors := 0 } "c1" =
        { queue := [], details := ["YouTube channel c1: discovery error: ytboom"], errors := 1 } ∧
      tgChannelStep envW [] 3 { queue := [], details := [], errors := 0 } "c2" =
        { queue := [], details := ["Telegram c2: fetch error: tgboom"], errors := 1 } ∧
      rssFeedStep envW [] 3 [] "f1" = [] := by
  refine ⟨?_, ?_, ?_⟩
  · exact (discovery_error_isolation envW [] "K" 3 3 { queue := [], details := [], errors := 0 }
      [] "c1" "f1" [] "ytboom").1 (by decide) rfl
  · exact (discovery_error_isolation envW [] "K" 3 3 { queue := [], details := [], errors := 0 }
      [] "c2" "f1" [] "tgboom").2.1 (by decide) rfl
  · exact (discovery_error_isolation envW [] "K" 3 3 { queue := [], details := [], errors := 0 }
      [] "c1" "f1" [] "boom").2.2.1 (by decide) rfl

/-- Settings requesting a "random" language. -/
def setLangRandom : Settings := { site_language := some "random" }

/-- C5 counterexample: the language axis is not resolved by hashing.
`LANGUAGES` has no `"random"` key, so `site_language = "random"` is
normalised to the default `"ru"`, whereas the hash pick over the
non-random language choices at seed `"x"` would be `"en"`. -/
theorem random_language_not_hashed_counterexample :
    (resolve_profile setLangRandom "x").language = "ru" ∧
      stable_pick ((LANGUAGES.map Prod.fst).filter (· ≠ "random")) ("x" ++ "|language") = "en" ∧
      ("ru" : String) ≠ "en" :=
  ⟨by decide, by decide, by decide⟩

/-- C5 (amended). For the style, format and mood axes, a `"random"` setting
resolves to the seed-stable pick: first eight hex digits of
`sha256(seed ++ "|<axis>")` as an integer, modulo the number of non-random
choices of that axis (determinism across calls is immediate, the embedding
being a pure function of `settings` and `seed`). The language axis has no
`"random"` choice: it falls back to the default `"ru"`. -/
theorem random_axes_seed_stable (settings : Settings) (seed : String) :
    (settings.content_style = some "random" →
      (resolve_profile settings seed).style =
        stable_pick ((STYLE_PRESETS.map Prod.fst).filter (· ≠ "random")) (seed ++ "|style")) ∧
    (settings.content_format = some "random" →
      (resolve_profile settings seed).content_format =
        stable_pick ((FORMAT_PRESETS.map Prod.fst).filter (· ≠ "random")) (seed ++ "|format")) ∧
    (settings.author_mood = some "random" →
      (resolve_profile settings seed).mood =
        stable_pick ((MOOD_PRESETS.map Prod.fst).filter (· ≠ "random")) (seed ++ "|mood")) ∧
    (settings.site_language = some "random" →
      (resolve_profile settings seed).language = "ru") := by
  refine ⟨?_, ?_, ?_, ?_⟩ <;>
    · intro h
      simp only [resolve_profile]
      rw [h]
      rfl

/-- Settings with all four axes set to "random". -/
def setAllRandom : Settings :=
  { site_language := some "random", content_style := some "random",
    content_format := some "random", author_mood := some "random" }

/-- C5 witness: with every axis "random" and seed `"x"`, the style, format
and mood axes resolve to their hash picks and the language falls back. -/
theorem random_axes_seed_stable_witness :
    (resolve_profile setAllRandom "x").style =
        stable_pick ((STYLE_PRESETS.map Prod.fst).filter (· ≠ "random")) ("x" ++ "|style") ∧
      (resolve_profile setAllRandom "x").content_format =
        stable_pick ((FORMAT_PRESETS.map Prod.fst).filter (· ≠ "random")) ("x" ++ "|format") ∧
      (resolve_profile setAllRandom "x").mood =
        stable_pick ((MOOD_PRESETS.map Prod.fst).filter (· ≠ "random")) ("x" ++ "|mood") ∧
      (resolve_profile setAllRandom "x").language = "ru" :=
  ⟨(random_axes_seed_stable setAllRandom "x").1 rfl,
    (random_axes_seed_stable setAllRandom "x").2.1 rfl,
    (random_axes_seed_stable setAllRandom "x").2.2.1 rfl,
    (random_axes_seed_stable setAllRandom "x").2.2.2 rfl⟩
